import Mathlib

/-!
Shallow embedding of the document-assembly pipeline of
`src/travel_agent/pdf_generator.py` (class `TravelGuidePDFGenerator`).

The PDF backend (reportlab) is modelled abstractly: the assembler builds a
`story : List Block` of flowables, where a flowable is a styled paragraph, a
spacer, or a page break.  `doc.build(story)` and the filesystem write are out
of scope; `generate_travel_guide` is modelled as the pure computation of the
output path together with the assembled story.

The input `travel_data : Dict[str, Any]` is duck-typed in the source: the
top level is a dict probed with `'key' in travel_data`, and the nested
catalog objects are probed with `hasattr(obj, 'field')` followed by a Python
truthiness test.  We model a possibly-missing dict key / attribute as an
`Option` field (`none` = key/attribute absent), and Python truthiness of the
looked-up value explicitly (`≠ []` for lists, `≠ ""` for strings).

`datetime.now()` is modelled by passing the three formatted date strings the
source computes from it (`%Y%m%d`, `%B %d, %Y`, `%B %d, %Y at %I:%M %p`) as
explicit parameters.
-/

namespace TravelGuide

/-- Paragraph styles created in `_create_custom_styles` / taken from the
sample stylesheet.  Only the style identity matters for the assembly logic. -/
inductive Style where
  | customTitle
  | sectionHeader
  | subsectionHeader
  | customBody
  | bulletPoint
  | heading3
  | normal
deriving DecidableEq, Repr

/-- A reportlab flowable as appended to `story`. -/
inductive Block where
  | paragraph : String → Style → Block
  | spacer : Nat → Nat → Block
  | pageBreak : Block
deriving DecidableEq, Repr

/-- `Hotel` record (schema from `agent.py` / `test_pdf.py`); the renderer
reads `name`, `price_per_night`, `location`, `description`. -/
structure Hotel where
  name : String
  price_range : String
  price_per_night : String
  description : String
  location : String
deriving DecidableEq, Repr

/-- `Restaurant` record; the renderer reads `name`, `cuisine_type`,
`price_per_person`, `signature_dishes`, `location_notes`. -/
structure Restaurant where
  name : String
  cuisine_type : String
  price_range : String
  price_per_person : String
  signature_dishes : String
  location_notes : String
deriving DecidableEq, Repr

/-- `Activity` record; the renderer reads `name`, `category`, `cost_range`,
`description`, `practical_info`. -/
structure Activity where
  name : String
  category : String
  description : String
  cost_range : String
  practical_info : String
deriving DecidableEq, Repr

/-- The hotels catalog as seen by `_create_hotels_section`: every field is
probed with `hasattr`, so each is optional (`none` = attribute absent). -/
structure HotelOptions where
  budget_hotels : Option (List Hotel)
  midrange_hotels : Option (List Hotel)
  luxury_hotels : Option (List Hotel)
  location_notes : Option String
deriving DecidableEq, Repr

/-- The restaurants catalog as seen by `_create_restaurants_section`. -/
structure RestaurantOptions where
  local_specialties : Option (List String)
  budget_dining : Option (List Restaurant)
  midrange_dining : Option (List Restaurant)
  fine_dining : Option (List Restaurant)
  unique_experiences : Option (List String)
deriving DecidableEq, Repr

/-- The activities catalog as seen by `_create_activities_section`. -/
structure ActivityOptions where
  must_see_attractions : Option (List Activity)
  cultural_experiences : Option (List Activity)
  outdoor_activities : Option (List Activity)
  entertainment_nightlife : Option (List Activity)
  local_experiences : Option (List Activity)
  practical_tips : Option String
deriving DecidableEq, Repr

/-- The top-level `travel_data` dict: each key may be absent
(`'travel_summary' in travel_data` etc.). -/
structure TravelData where
  travel_summary : Option String
  validated_hotels : Option HotelOptions
  validated_restaurants : Option RestaurantOptions
  validated_activities : Option ActivityOptions
deriving DecidableEq, Repr

/-- The triple-quoted description literal on the title page. -/
def titleDescription : String :=
  "\n        This comprehensive travel guide has been created by our AI travel planning system \n        to help you make the most of your visit. Inside you\x27ll find carefully curated \n        recommendations for accommodations, dining, and activities, all organized by \n        price range and category to suit your preferences and budget.\n        "

/-- `_create_title_page`: title, subtitle, generation date, description. -/
def _create_title_page (destination longDate : String) : List Block :=
  [Block.paragraph ("🌍 Travel Guide to " ++ destination) Style.customTitle,
   Block.spacer 1 50,
   Block.paragraph "Your AI-Powered Travel Companion" Style.heading3,
   Block.spacer 1 30,
   Block.paragraph ("Generated on " ++ longDate) Style.normal,
   Block.spacer 1 100,
   Block.paragraph titleDescription Style.customBody]

/-- `_create_executive_summary`. -/
def _create_executive_summary (summary : String) : List Block :=
  [Block.paragraph "📋 Executive Summary" Style.sectionHeader,
   Block.paragraph summary Style.customBody,
   Block.spacer 1 20]

/-- The per-hotel f-string `hotel_info` in `_create_hotel_category`. -/
def hotel_info (hotel : Hotel) : String :=
  "\n            <b>" ++ hotel.name ++ "</b><br/>\n            <i>Price Range:</i> "
    ++ hotel.price_per_night ++ "<br/>\n            <i>Location:</i> "
    ++ hotel.location ++ "<br/>\n            " ++ hotel.description
    ++ "\n            "

/-- `_create_hotel_category`: subsection heading, then one body paragraph
plus spacer per hotel, in list order, then a trailing spacer. -/
def _create_hotel_category (title : String) (hotels : List Hotel) : List Block :=
  [Block.paragraph title Style.subsectionHeader]
    ++ hotels.flatMap (fun hotel =>
        [Block.paragraph (hotel_info hotel) Style.customBody, Block.spacer 1 10])
    ++ [Block.spacer 1 15]

/-- The guard pattern `if hasattr(obj, f) and obj.f:` for a list-valued
attribute: render only when the attribute exists and the list is non-empty
(Python truthiness). -/
def listGuard {α : Type} (o : Option (List α)) (f : List α → List Block) : List Block :=
  match o with
  | some xs => if xs.isEmpty then [] else f xs
  | none => []

/-- The guard pattern `if hasattr(obj, f) and obj.f:` for a string-valued
attribute: render only when the attribute exists and the string is non-empty
(Python truthiness). -/
def strGuard (o : Option String) (f : String → List Block) : List Block :=
  match o with
  | some s => if s ≠ "" then f s else []
  | none => []

/-- `_create_hotels_section`: section heading, optional location notes, then
budget, mid-range, luxury tiers in that order, each guarded by
`hasattr(hotels_data, f) and hotels_data.f`. -/
def _create_hotels_section (hotels_data : HotelOptions) : List Block :=
  [Block.paragraph "🏨 Accommodation Recommendations" Style.sectionHeader]
    ++ strGuard hotels_data.location_notes (fun s =>
        [Block.paragraph "📍 Best Areas to Stay" Style.subsectionHeader,
         Block.paragraph s Style.customBody,
         Block.spacer 1 15])
    ++ listGuard hotels_data.budget_hotels
        (_create_hotel_category "💰 Budget Hotels (Under $100/night)")
    ++ listGuard hotels_data.midrange_hotels
        (_create_hotel_category "🏨 Mid-Range Hotels ($100-250/night)")
    ++ listGuard hotels_data.luxury_hotels
        (_create_hotel_category "✨ Luxury Hotels ($250+/night)")

/-- The per-restaurant f-string `restaurant_info`. -/
def restaurant_info (restaurant : Restaurant) : String :=
  "\n            <b>" ++ restaurant.name ++ "</b> - <i>" ++ restaurant.cuisine_type
    ++ "</i><br/>\n            <i>Price Range:</i> " ++ restaurant.price_per_person
    ++ "<br/>\n            <i>Signature Dishes:</i> " ++ restaurant.signature_dishes
    ++ "<br/>\n            <i>Location:</i> " ++ restaurant.location_notes
    ++ "\n            "

/-- `_create_restaurant_category`. -/
def _create_restaurant_category (title : String) (restaurants : List Restaurant) :
    List Block :=
  [Block.paragraph title Style.subsectionHeader]
    ++ restaurants.flatMap (fun restaurant =>
        [Block.paragraph (restaurant_info restaurant) Style.customBody,
         Block.spacer 1 10])
    ++ [Block.spacer 1 15]

/-- `_create_restaurants_section`: section heading, optional local
specialties, tiers budget → mid-range → fine dining, optional unique
experiences. -/
def _create_restaurants_section (restaurants_data : RestaurantOptions) : List Block :=
  [Block.paragraph "🍽️ Dining Recommendations" Style.sectionHeader]
    ++ listGuard restaurants_data.local_specialties (fun specs =>
        [Block.paragraph "🥘 Local Specialties & Must-Try Dishes" Style.subsectionHeader]
          ++ specs.map (fun specialty =>
              Block.paragraph ("• " ++ specialty) Style.bulletPoint)
          ++ [Block.spacer 1 15])
    ++ listGuard restaurants_data.budget_dining
        (_create_restaurant_category "💰 Budget Dining (Under $25/person)")
    ++ listGuard restaurants_data.midrange_dining
        (_create_restaurant_category "🍴 Mid-Range Dining ($25-60/person)")
    ++ listGuard restaurants_data.fine_dining
        (_create_restaurant_category "🥂 Fine Dining ($60+/person)")
    ++ listGuard restaurants_data.unique_experiences (fun exps =>
        [Block.paragraph "🌟 Unique Dining Experiences" Style.subsectionHeader]
          ++ exps.map (fun experience =>
              Block.paragraph ("• " ++ experience) Style.bulletPoint)
          ++ [Block.spacer 1 15])

/-- The per-activity f-string `activity_info`. -/
def activity_info (activity : Activity) : String :=
  "\n            <b>" ++ activity.name ++ "</b> - <i>" ++ activity.category
    ++ "</i><br/>\n            <i>Cost:</i> " ++ activity.cost_range
    ++ "<br/>\n            " ++ activity.description
    ++ "<br/>\n            <i>Practical Info:</i> " ++ activity.practical_info
    ++ "\n            "

/-- `_create_activity_category`. -/
def _create_activity_category (title : String) (activities : List Activity) :
    List Block :=
  [Block.paragraph title Style.subsectionHeader]
    ++ activities.flatMap (fun activity =>
        [Block.paragraph (activity_info activity) Style.customBody,
         Block.spacer 1 10])
    ++ [Block.spacer 1 15]

/-- `_create_activities_section`: section heading, five category subsections
in fixed order, optional practical tips. -/
def _create_activities_section (activities_data : ActivityOptions) : List Block :=
  [Block.paragraph "🎯 Activities & Attractions" Style.sectionHeader]
    ++ listGuard activities_data.must_see_attractions
        (_create_activity_category "⭐ Must-See Attractions")
    ++ listGuard activities_data.cultural_experiences
        (_create_activity_category "🏛️ Cultural Experiences")
    ++ listGuard activities_data.outdoor_activities
        (_create_activity_category "🌲 Outdoor Activities")
    ++ listGuard activities_data.entertainment_nightlife
        (_create_activity_category "🎭 Entertainment & Nightlife")
    ++ listGuard activities_data.local_experiences
        (_create_activity_category "🏠 Local Experiences")
    ++ strGuard activities_data.practical_tips (fun tips =>
        [Block.paragraph "💡 Practical Tips" Style.subsectionHeader,
         Block.paragraph tips Style.customBody,
         Block.spacer 1 15])

/-- `_create_footer`: page break, spacer, italic closing paragraph. -/
def _create_footer (destination dateTimeLong : String) : List Block :=
  [Block.pageBreak,
   Block.spacer 1 200,
   Block.paragraph
     ("\n        <i>This travel guide was generated by Travel Agent AI on "
       ++ dateTimeLong
       ++ ".<br/>\n        Information is subject to change. Please verify details before making reservations.<br/>\n        Have an amazing trip to "
       ++ destination ++ "! 🌟</i>\n        ")
     Style.normal]

/-- `destination.replace(' ', '_')`: the pattern is a single character, so
Python's `str.replace` is exactly the per-character substitution. -/
def replaceSpaceWithUnderscore (s : String) : String :=
  String.mk (s.data.map (fun ch => if ch = ' ' then '_' else ch))

/-- `….replace(',', '')`: the pattern is a single character and the
replacement empty, so Python's `str.replace` is exactly the deletion of
every comma. -/
def removeCommas (s : String) : String :=
  String.mk (s.data.filter (fun ch => ch ≠ ','))

/-- The filename computed at the top of `generate_travel_guide`:
`f"{self.destination.replace(' ', '_').replace(',', '')}_Travel_Guide_{date}.pdf"`. -/
def guideFilename (destination dateYYYYMMDD : String) : String :=
  removeCommas (replaceSpaceWithUnderscore destination)
    ++ "_Travel_Guide_" ++ dateYYYYMMDD ++ ".pdf"

/-- `generate_travel_guide`: computes the output path and assembles the
story (title page, unconditional page break, then the four optional
sections guarded by `'key' in travel_data`, then the footer).  Returns
`(filepath, story)`; `doc.build(story)` writing the file is out of scope. -/
def generate_travel_guide (destination output_dir : String)
    (dateYYYYMMDD longDate dateTimeLong : String)
    (travel_data : TravelData) : String × List Block :=
  let filename := guideFilename destination dateYYYYMMDD
  let filepath := output_dir ++ "/" ++ filename
  let story :=
    _create_title_page destination longDate
      ++ [Block.pageBreak]
      ++ (match travel_data.travel_summary with
          | some s => _create_executive_summary s
          | none => [])
      ++ (match travel_data.validated_hotels with
          | some h => _create_hotels_section h
          | none => [])
      ++ (match travel_data.validated_restaurants with
          | some r => _create_restaurants_section r
          | none => [])
      ++ (match travel_data.validated_activities with
          | some a => _create_activities_section a
          | none => [])
      ++ _create_footer destination dateTimeLong
  (filepath, story)

/-- The story assembled by `generate_travel_guide` (second component). -/
def storyOf (destination output_dir : String)
    (dateYYYYMMDD longDate dateTimeLong : String)
    (travel_data : TravelData) : List Block :=
  (generate_travel_guide destination output_dir dateYYYYMMDD longDate dateTimeLong
    travel_data).2

/-- `generate_travel_guide` with the state of the mutable input made
explicit: the source only ever reads `travel_data` (via `in` / `hasattr` /
attribute access) and never assigns to it or its nested catalogs, so the
post-call state of the input is the input itself. -/
def generate_travel_guide_frame (destination output_dir : String)
    (dateYYYYMMDD longDate dateTimeLong : String)
    (travel_data : TravelData) : (String × List Block) × TravelData :=
  (generate_travel_guide destination output_dir dateYYYYMMDD longDate dateTimeLong
    travel_data, travel_data)

/-! ### Named heading blocks (for stating the claims) -/

def execSummaryHeading : Block :=
  Block.paragraph "📋 Executive Summary" Style.sectionHeader

def hotelsHeading : Block :=
  Block.paragraph "🏨 Accommodation Recommendations" Style.sectionHeader

def diningHeading : Block :=
  Block.paragraph "🍽️ Dining Recommendations" Style.sectionHeader

def activitiesHeading : Block :=
  Block.paragraph "🎯 Activities & Attractions" Style.sectionHeader

def locationNotesHeading : Block :=
  Block.paragraph "📍 Best Areas to Stay" Style.subsectionHeader

def budgetHotelsHeading : Block :=
  Block.paragraph "💰 Budget Hotels (Under $100/night)" Style.subsectionHeader

def budgetDiningHeading : Block :=
  Block.paragraph "💰 Budget Dining (Under $25/person)" Style.subsectionHeader

def mustSeeHeading : Block :=
  Block.paragraph "⭐ Must-See Attractions" Style.subsectionHeader

/-! ### Membership structure of the rendered chunks -/

/-- The style of a paragraph block (`none` for spacers and page breaks). -/
def paraStyle : Block → Option Style
  | Block.paragraph _ s => some s
  | _ => none

lemma mem_hotel_category {b : Block} {t : String} {hs : List Hotel}
    (h : b ∈ _create_hotel_category t hs) :
    b = Block.paragraph t Style.subsectionHeader ∨
      paraStyle b = some Style.customBody ∨ paraStyle b = none := by
  simp only [_create_hotel_category, List.mem_append, List.mem_flatMap,
    List.mem_cons, List.mem_singleton, List.not_mem_nil, or_false] at h
  rcases h with (h | ⟨a, _, h | h⟩) | h
  · exact Or.inl h
  · subst h; exact Or.inr (Or.inl rfl)
  · subst h; exact Or.inr (Or.inr rfl)
  · subst h; exact Or.inr (Or.inr rfl)

lemma mem_restaurant_category {b : Block} {t : String} {rs : List Restaurant}
    (h : b ∈ _create_restaurant_category t rs) :
    b = Block.paragraph t Style.subsectionHeader ∨
      paraStyle b = some Style.customBody ∨ paraStyle b = none := by
  simp only [_create_restaurant_category, List.mem_append, List.mem_flatMap,
    List.mem_cons, List.mem_singleton, List.not_mem_nil, or_false] at h
  rcases h with (h | ⟨a, _, h | h⟩) | h
  · exact Or.inl h
  · subst h; exact Or.inr (Or.inl rfl)
  · subst h; exact Or.inr (Or.inr rfl)
  · subst h; exact Or.inr (Or.inr rfl)

lemma mem_activity_category {b : Block} {t : String} {as_ : List Activity}
    (h : b ∈ _create_activity_category t as_) :
    b = Block.paragraph t Style.subsectionHeader ∨
      paraStyle b = some Style.customBody ∨ paraStyle b = none := by
  simp only [_create_activity_category, List.mem_append, List.mem_flatMap,
    List.mem_cons, List.mem_singleton, List.not_mem_nil, or_false] at h
  rcases h with (h | ⟨a, _, h | h⟩) | h
  · exact Or.inl h
  · subst h; exact Or.inr (Or.inl rfl)
  · subst h; exact Or.inr (Or.inr rfl)
  · subst h; exact Or.inr (Or.inr rfl)

@[simp] lemma listGuard_none {α : Type} {f : List α → List Block} :
    listGuard none f = [] := rfl

@[simp] lemma listGuard_nil {α : Type} {f : List α → List Block} :
    listGuard (some []) f = [] := by simp [listGuard]

lemma listGuard_pos {α : Type} {xs : List α} {f : List α → List Block}
    (h : xs ≠ []) : listGuard (some xs) f = f xs := by
  simp [listGuard, List.isEmpty_iff, h]

@[simp] lemma strGuard_none {f : String → List Block} :
    strGuard none f = [] := rfl

@[simp] lemma strGuard_empty {f : String → List Block} :
    strGuard (some "") f = [] := by simp [strGuard]

lemma strGuard_pos {s : String} {f : String → List Block}
    (h : s ≠ "") : strGuard (some s) f = f s := by simp [strGuard, h]

lemma mem_listGuard {α : Type} {o : Option (List α)} {f : List α → List Block}
    {b : Block} (h : b ∈ listGuard o f) :
    ∃ xs, o = some xs ∧ xs ≠ [] ∧ b ∈ f xs := by
  cases o with
  | none => simp at h
  | some xs =>
    by_cases hne : xs = []
    · subst hne; simp at h
    · rw [listGuard_pos hne] at h
      exact ⟨xs, rfl, hne, h⟩

lemma mem_strGuard {o : Option String} {f : String → List Block}
    {b : Block} (h : b ∈ strGuard o f) :
    ∃ s, o = some s ∧ s ≠ "" ∧ b ∈ f s := by
  cases o with
  | none => simp at h
  | some s =>
    by_cases hne : s = ""
    · subst hne; simp at h
    · rw [strGuard_pos hne] at h
      exact ⟨s, rfl, hne, h⟩

/-- Every block of the hotels section is its section heading, one of its four
fixed subsection headings, a body-styled paragraph, or a non-paragraph. -/
lemma mem_hotels_section {b : Block} {hd : HotelOptions}
    (h : b ∈ _create_hotels_section hd) :
    b = hotelsHeading ∨ b = locationNotesHeading ∨ b = budgetHotelsHeading ∨
      b = Block.paragraph "🏨 Mid-Range Hotels ($100-250/night)" Style.subsectionHeader ∨
      b = Block.paragraph "✨ Luxury Hotels ($250+/night)" Style.subsectionHeader ∨
      paraStyle b = some Style.customBody ∨ paraStyle b = none := by
  simp only [_create_hotels_section, List.mem_append, List.mem_singleton] at h
  rcases h with ((((h | h) | h) | h) | h)
  · exact Or.inl (by simp [hotelsHeading, h])
  · obtain ⟨s, _, _, h⟩ := mem_strGuard h
    simp only [List.mem_cons, List.not_mem_nil, or_false] at h
    rcases h with h | h | h
    · exact Or.inr (Or.inl (by simp [locationNotesHeading, h]))
    · subst h; exact Or.inr (Or.inr (Or.inr (Or.inr (Or.inr (Or.inl rfl)))))
    · subst h; exact Or.inr (Or.inr (Or.inr (Or.inr (Or.inr (Or.inr rfl)))))
  · obtain ⟨xs, _, _, h⟩ := mem_listGuard h
    rcases mem_hotel_category h with h | h | h
    · exact Or.inr (Or.inr (Or.inl (by simp [budgetHotelsHeading, h])))
    · exact Or.inr (Or.inr (Or.inr (Or.inr (Or.inr (Or.inl h)))))
    · exact Or.inr (Or.inr (Or.inr (Or.inr (Or.inr (Or.inr h)))))
  · obtain ⟨xs, _, _, h⟩ := mem_listGuard h
    rcases mem_hotel_category h with h | h | h
    · exact Or.inr (Or.inr (Or.inr (Or.inl h)))
    · exact Or.inr (Or.inr (Or.inr (Or.inr (Or.inr (Or.inl h)))))
    · exact Or.inr (Or.inr (Or.inr (Or.inr (Or.inr (Or.inr h)))))
  · obtain ⟨xs, _, _, h⟩ := mem_listGuard h
    rcases mem_hotel_category h with h | h | h
    · exact Or.inr (Or.inr (Or.inr (Or.inr (Or.inl h))))
    · exact Or.inr (Or.inr (Or.inr (Or.inr (Or.inr (Or.inl h)))))
    · exact Or.inr (Or.inr (Or.inr (Or.inr (Or.inr (Or.inr h)))))

/-- Every block of the restaurants section is its section heading, one of its
five fixed subsection headings, a body- or bullet-styled paragraph, or a
non-paragraph. -/
lemma mem_restaurants_section {b : Block} {rd : RestaurantOptions}
    (h : b ∈ _create_restaurants_section rd) :
    b = diningHeading ∨
      b = Block.paragraph "🥘 Local Specialties & Must-Try Dishes" Style.subsectionHeader ∨
      b = budgetDiningHeading ∨
      b = Block.paragraph "🍴 Mid-Range Dining ($25-60/person)" Style.subsectionHeader ∨
      b = Block.paragraph "🥂 Fine Dining ($60+/person)" Style.subsectionHeader ∨
      b = Block.paragraph "🌟 Unique Dining Experiences" Style.subsectionHeader ∨
      paraStyle b = some Style.customBody ∨ paraStyle b = some Style.bulletPoint ∨
      paraStyle b = none := by
  simp only [_create_restaurants_section, List.mem_append, List.mem_singleton] at h
  rcases h with (((((h | h) | h) | h) | h) | h)
  · simp [diningHeading, h]
  · obtain ⟨xs, _, _, h⟩ := mem_listGuard h
    simp only [List.mem_append, List.mem_singleton, List.mem_map, List.mem_cons,
      List.not_mem_nil, or_false] at h
    rcases h with (h | ⟨a, _, h⟩) | h <;>
      first
      | (subst h;
         simp [paraStyle, diningHeading, budgetDiningHeading, activitiesHeading,
           mustSeeHeading])
      | simp [h]
  · obtain ⟨xs, _, _, h⟩ := mem_listGuard h
    rcases mem_restaurant_category h with h | h | h <;>
      first
      | (subst h;
         simp [paraStyle, diningHeading, budgetDiningHeading, activitiesHeading,
           mustSeeHeading])
      | simp [h]
  · obtain ⟨xs, _, _, h⟩ := mem_listGuard h
    rcases mem_restaurant_category h with h | h | h <;>
      first
      | (subst h;
         simp [paraStyle, diningHeading, budgetDiningHeading, activitiesHeading,
           mustSeeHeading])
      | simp [h]
  · obtain ⟨xs, _, _, h⟩ := mem_listGuard h
    rcases mem_restaurant_category h with h | h | h <;>
      first
      | (subst h;
         simp [paraStyle, diningHeading, budgetDiningHeading, activitiesHeading,
           mustSeeHeading])
      | simp [h]
  · obtain ⟨xs, _, _, h⟩ := mem_listGuard h
    simp only [List.mem_append, List.mem_singleton, List.mem_map, List.mem_cons,
      List.not_mem_nil, or_false] at h
    rcases h with (h | ⟨a, _, h⟩) | h <;>
      first
      | (subst h;
         simp [paraStyle, diningHeading, budgetDiningHeading, activitiesHeading,
           mustSeeHeading])
      | simp [h]

/-- Every block of the activities section is its section heading, one of its
six fixed subsection headings, a body-styled paragraph, or a non-paragraph. -/
lemma mem_activities_section {b : Block} {ad : ActivityOptions}
    (h : b ∈ _create_activities_section ad) :
    b = activitiesHeading ∨ b = mustSeeHeading ∨
      b = Block.paragraph "🏛️ Cultural Experiences" Style.subsectionHeader ∨
      b = Block.paragraph "🌲 Outdoor Activities" Style.subsectionHeader ∨
      b = Block.paragraph "🎭 Entertainment & Nightlife" Style.subsectionHeader ∨
      b = Block.paragraph "🏠 Local Experiences" Style.subsectionHeader ∨
      b = Block.paragraph "💡 Practical Tips" Style.subsectionHeader ∨
      paraStyle b = some Style.customBody ∨ paraStyle b = none := by
  simp only [_create_activities_section, List.mem_append, List.mem_singleton] at h
  rcases h with ((((((h | h) | h) | h) | h) | h) | h)
  · simp [activitiesHeading, h]
  · obtain ⟨xs, _, _, h⟩ := mem_listGuard h
    rcases mem_activity_category h with h | h | h <;>
      first
      | (subst h;
         simp [paraStyle, diningHeading, budgetDiningHeading, activitiesHeading,
           mustSeeHeading])
      | simp [h]
  · obtain ⟨xs, _, _, h⟩ := mem_listGuard h
    rcases mem_activity_category h with h | h | h <;>
      first
      | (subst h;
         simp [paraStyle, diningHeading, budgetDiningHeading, activitiesHeading,
           mustSeeHeading])
      | simp [h]
  · obtain ⟨xs, _, _, h⟩ := mem_listGuard h
    rcases mem_activity_category h with h | h | h <;>
      first
      | (subst h;
         simp [paraStyle, diningHeading, budgetDiningHeading, activitiesHeading,
           mustSeeHeading])
      | simp [h]
  · obtain ⟨xs, _, _, h⟩ := mem_listGuard h
    rcases mem_activity_category h with h | h | h <;>
      first
      | (subst h;
         simp [paraStyle, diningHeading, budgetDiningHeading, activitiesHeading,
           mustSeeHeading])
      | simp [h]
  · obtain ⟨xs, _, _, h⟩ := mem_listGuard h
    rcases mem_activity_category h with h | h | h <;>
      first
      | (subst h;
         simp [paraStyle, diningHeading, budgetDiningHeading, activitiesHeading,
           mustSeeHeading])
      | simp [h]
  · obtain ⟨s, _, _, h⟩ := mem_strGuard h
    simp only [List.mem_cons, List.not_mem_nil, or_false] at h
    rcases h with h | h | h <;>
      first
      | (subst h;
         simp [paraStyle, diningHeading, budgetDiningHeading, activitiesHeading,
           mustSeeHeading])
      | simp [h]

/-- Title-page blocks are title/heading3/normal/body paragraphs or spacers;
in particular no section or subsection heading appears there. -/
lemma mem_title_page {b : Block} {destination longDate : String}
    (h : b ∈ _create_title_page destination longDate) :
    paraStyle b = some Style.customTitle ∨ paraStyle b = some Style.heading3 ∨
      paraStyle b = some Style.normal ∨ paraStyle b = some Style.customBody ∨
      paraStyle b = none := by
  simp only [_create_title_page, List.mem_cons, List.not_mem_nil, or_false] at h
  rcases h with h | h | h | h | h | h | h <;> subst h <;> simp [paraStyle]

/-- Executive-summary blocks are the fixed heading, a body paragraph, or a
spacer. -/
lemma mem_executive_summary {b : Block} {s : String}
    (h : b ∈ _create_executive_summary s) :
    b = execSummaryHeading ∨ paraStyle b = some Style.customBody ∨
      paraStyle b = none := by
  simp only [_create_executive_summary, List.mem_cons, List.not_mem_nil, or_false] at h
  rcases h with h | h | h
  · exact Or.inl (by simp [execSummaryHeading, h])
  · subst h; exact Or.inr (Or.inl rfl)
  · subst h; exact Or.inr (Or.inr rfl)

/-- Footer blocks are a page break, a spacer, or a normal-styled paragraph. -/
lemma mem_footer {b : Block} {destination dateTimeLong : String}
    (h : b ∈ _create_footer destination dateTimeLong) :
    paraStyle b = some Style.normal ∨ paraStyle b = none := by
  simp only [_create_footer, List.mem_cons, List.not_mem_nil, or_false] at h
  rcases h with h | h | h <;> subst h <;> simp [paraStyle]

/-- The assembled story is the concatenation of the title page, a page
break, the four guarded sections, and the footer. -/
lemma storyOf_eq {destination output_dir y l t : String} {data : TravelData} :
    storyOf destination output_dir y l t data =
      _create_title_page destination l ++ [Block.pageBreak]
        ++ (match data.travel_summary with
            | some s => _create_executive_summary s
            | none => [])
        ++ (match data.validated_hotels with
            | some hd => _create_hotels_section hd
            | none => [])
        ++ (match data.validated_restaurants with
            | some rd => _create_restaurants_section rd
            | none => [])
        ++ (match data.validated_activities with
            | some ad => _create_activities_section ad
            | none => [])
        ++ _create_footer destination t := rfl

/-- Decomposition of membership in the assembled story. -/
lemma mem_storyOf {b : Block} {destination output_dir y l t : String}
    {data : TravelData} (h : b ∈ storyOf destination output_dir y l t data) :
    b ∈ _create_title_page destination l ∨ b = Block.pageBreak ∨
      (∃ s, data.travel_summary = some s ∧ b ∈ _create_executive_summary s) ∨
      (∃ hd, data.validated_hotels = some hd ∧ b ∈ _create_hotels_section hd) ∨
      (∃ rd, data.validated_restaurants = some rd ∧ b ∈ _create_restaurants_section rd) ∨
      (∃ ad, data.validated_activities = some ad ∧ b ∈ _create_activities_section ad) ∨
      b ∈ _create_footer destination t := by
  obtain ⟨ts, vh, vr, va⟩ := data
  rw [storyOf_eq] at h
  simp only [List.mem_append, List.mem_singleton] at h
  rcases h with ((((((h | h) | h) | h) | h) | h) | h)
  · exact Or.inl h
  · exact Or.inr (Or.inl h)
  · cases ts with
    | none => simp at h
    | some s => exact Or.inr (Or.inr (Or.inl ⟨s, rfl, h⟩))
  · cases vh with
    | none => simp at h
    | some hd => exact Or.inr (Or.inr (Or.inr (Or.inl ⟨hd, rfl, h⟩)))
  · cases vr with
    | none => simp at h
    | some rd => exact Or.inr (Or.inr (Or.inr (Or.inr (Or.inl ⟨rd, rfl, h⟩))))
  · cases va with
    | none => simp at h
    | some ad => exact Or.inr (Or.inr (Or.inr (Or.inr (Or.inr (Or.inl ⟨ad, rfl, h⟩)))))
  · exact Or.inr (Or.inr (Or.inr (Or.inr (Or.inr (Or.inr h)))))

/-! ### Which headings can occur where -/

lemma sectionHeader_notin_title_page {tx destination longDate : String} :
    Block.paragraph tx Style.sectionHeader ∉ _create_title_page destination longDate := by
  intro h
  rcases mem_title_page h with h | h | h | h | h <;> simp [paraStyle] at h

lemma sectionHeader_notin_footer {tx destination dateTimeLong : String} :
    Block.paragraph tx Style.sectionHeader ∉ _create_footer destination dateTimeLong := by
  intro h
  rcases mem_footer h with h | h <;> simp [paraStyle] at h

lemma mem_executive_summary_sectionHeader {tx s : String}
    (h : Block.paragraph tx Style.sectionHeader ∈ _create_executive_summary s) :
    tx = "📋 Executive Summary" := by
  rcases mem_executive_summary h with h | h | h <;>
    simp_all [execSummaryHeading, paraStyle]

lemma mem_hotels_section_sectionHeader {tx : String} {hd : HotelOptions}
    (h : Block.paragraph tx Style.sectionHeader ∈ _create_hotels_section hd) :
    tx = "🏨 Accommodation Recommendations" := by
  rcases mem_hotels_section h with h | h | h | h | h | h | h <;>
    simp_all [hotelsHeading, locationNotesHeading, budgetHotelsHeading, paraStyle]

lemma mem_restaurants_section_sectionHeader {tx : String} {rd : RestaurantOptions}
    (h : Block.paragraph tx Style.sectionHeader ∈ _create_restaurants_section rd) :
    tx = "🍽️ Dining Recommendations" := by
  rcases mem_restaurants_section h with h | h | h | h | h | h | h | h | h <;>
    simp_all [diningHeading, budgetDiningHeading, paraStyle]

lemma mem_activities_section_sectionHeader {tx : String} {ad : ActivityOptions}
    (h : Block.paragraph tx Style.sectionHeader ∈ _create_activities_section ad) :
    tx = "🎯 Activities & Attractions" := by
  rcases mem_activities_section h with h | h | h | h | h | h | h | h | h <;>
    simp_all [activitiesHeading, mustSeeHeading, paraStyle]

/-- A section-header paragraph occurs in the story only as the heading of a
section whose backing field is present. -/
lemma mem_storyOf_sectionHeader {tx : String}
    {destination output_dir y l t : String} {data : TravelData}
    (h : Block.paragraph tx Style.sectionHeader ∈
        storyOf destination output_dir y l t data) :
    (tx = "📋 Executive Summary" ∧ ∃ s, data.travel_summary = some s) ∨
      (tx = "🏨 Accommodation Recommendations" ∧
        ∃ hd, data.validated_hotels = some hd) ∨
      (tx = "🍽️ Dining Recommendations" ∧
        ∃ rd, data.validated_restaurants = some rd) ∨
      (tx = "🎯 Activities & Attractions" ∧
        ∃ ad, data.validated_activities = some ad) := by
  rcases mem_storyOf h with h | h | ⟨s, hs, h⟩ | ⟨hd, hh, h⟩ | ⟨rd, hr, h⟩ | ⟨ad, ha, h⟩ | h
  · exact absurd h sectionHeader_notin_title_page
  · simp at h
  · exact Or.inl ⟨mem_executive_summary_sectionHeader h, s, hs⟩
  · exact Or.inr (Or.inl ⟨mem_hotels_section_sectionHeader h, hd, hh⟩)
  · exact Or.inr (Or.inr (Or.inl ⟨mem_restaurants_section_sectionHeader h, rd, hr⟩))
  · exact Or.inr (Or.inr (Or.inr ⟨mem_activities_section_sectionHeader h, ad, ha⟩))
  · exact absurd h sectionHeader_notin_footer

/-- The budget-hotels subsection heading occurs only when `budget_hotels` is
present and non-empty. -/
lemma budgetHotelsHeading_mem (hd : HotelOptions)
    (h : budgetHotelsHeading ∈ _create_hotels_section hd) :
    ∃ hs, hd.budget_hotels = some hs ∧ hs ≠ [] := by
  simp only [_create_hotels_section, List.mem_append, List.mem_singleton] at h
  rcases h with ((((h | h) | h) | h) | h)
  · exact absurd h (by simp [budgetHotelsHeading])
  · obtain ⟨s, _, _, h⟩ := mem_strGuard h
    exfalso; simp [budgetHotelsHeading, paraStyle] at h
  · obtain ⟨xs, hx, hne, _⟩ := mem_listGuard h
    exact ⟨xs, hx, hne⟩
  · obtain ⟨xs, _, _, h⟩ := mem_listGuard h
    exfalso
    rcases mem_hotel_category h with h | h | h <;>
      simp [budgetHotelsHeading, paraStyle] at h
  · obtain ⟨xs, _, _, h⟩ := mem_listGuard h
    exfalso
    rcases mem_hotel_category h with h | h | h <;>
      simp [budgetHotelsHeading, paraStyle] at h

/-- The location-notes subsection heading occurs only when `location_notes`
is present and non-empty. -/
lemma locationNotesHeading_mem (hd : HotelOptions)
    (h : locationNotesHeading ∈ _create_hotels_section hd) :
    ∃ s, hd.location_notes = some s ∧ s ≠ "" := by
  simp only [_create_hotels_section, List.mem_append, List.mem_singleton] at h
  rcases h with ((((h | h) | h) | h) | h)
  · exact absurd h (by simp [locationNotesHeading])
  · obtain ⟨s, hx, hne, _⟩ := mem_strGuard h
    exact ⟨s, hx, hne⟩
  all_goals
    obtain ⟨xs, _, _, h⟩ := mem_listGuard h
    exfalso
    rcases mem_hotel_category h with h | h | h <;>
      simp [locationNotesHeading, paraStyle] at h

/-- The budget-dining subsection heading occurs only when `budget_dining` is
present and non-empty. -/
lemma budgetDiningHeading_mem (rd : RestaurantOptions)
    (h : budgetDiningHeading ∈ _create_restaurants_section rd) :
    ∃ rs, rd.budget_dining = some rs ∧ rs ≠ [] := by
  simp only [_create_restaurants_section, List.mem_append, List.mem_singleton] at h
  rcases h with (((((h | h) | h) | h) | h) | h)
  · exact absurd h (by simp [budgetDiningHeading])
  · obtain ⟨xs, _, _, h⟩ := mem_listGuard h
    exfalso
    simp only [List.mem_append, List.mem_singleton, List.mem_map, List.mem_cons,
      List.not_mem_nil, or_false] at h
    rcases h with (h | ⟨a, _, h⟩) | h <;> simp [budgetDiningHeading] at h
  · obtain ⟨xs, hx, hne, _⟩ := mem_listGuard h
    exact ⟨xs, hx, hne⟩
  · obtain ⟨xs, _, _, h⟩ := mem_listGuard h
    exfalso
    rcases mem_restaurant_category h with h | h | h <;>
      simp [budgetDiningHeading, paraStyle] at h
  · obtain ⟨xs, _, _, h⟩ := mem_listGuard h
    exfalso
    rcases mem_restaurant_category h with h | h | h <;>
      simp [budgetDiningHeading, paraStyle] at h
  · obtain ⟨xs, _, _, h⟩ := mem_listGuard h
    exfalso
    simp only [List.mem_append, List.mem_singleton, List.mem_map, List.mem_cons,
      List.not_mem_nil, or_false] at h
    rcases h with (h | ⟨a, _, h⟩) | h <;> simp [budgetDiningHeading] at h

/-- The must-see subsection heading occurs only when `must_see_attractions`
is present and non-empty. -/
lemma mustSeeHeading_mem (ad : ActivityOptions)
    (h : mustSeeHeading ∈ _create_activities_section ad) :
    ∃ xs, ad.must_see_attractions = some xs ∧ xs ≠ [] := by
  simp only [_create_activities_section, List.mem_append, List.mem_singleton] at h
  rcases h with ((((((h | h) | h) | h) | h) | h) | h)
  · exact absurd h (by simp [mustSeeHeading])
  · obtain ⟨xs, hx, hne, _⟩ := mem_listGuard h
    exact ⟨xs, hx, hne⟩
  · obtain ⟨xs, _, _, h⟩ := mem_listGuard h
    exfalso
    rcases mem_activity_category h with h | h | h <;>
      simp [mustSeeHeading, paraStyle] at h
  · obtain ⟨xs, _, _, h⟩ := mem_listGuard h
    exfalso
    rcases mem_activity_category h with h | h | h <;>
      simp [mustSeeHeading, paraStyle] at h
  · obtain ⟨xs, _, _, h⟩ := mem_listGuard h
    exfalso
    rcases mem_activity_category h with h | h | h <;>
      simp [mustSeeHeading, paraStyle] at h
  · obtain ⟨xs, _, _, h⟩ := mem_listGuard h
    exfalso
    rcases mem_activity_category h with h | h | h <;>
      simp [mustSeeHeading, paraStyle] at h
  · obtain ⟨s, _, _, h⟩ := mem_strGuard h
    exfalso; simp [mustSeeHeading, paraStyle] at h

/-- When the hotels field is present, the hotels section occurs contiguously
(in order) inside the assembled story. -/
lemma hotels_section_sublist (d o y l t : String) {data : TravelData}
    {hd : HotelOptions} (hh : data.validated_hotels = some hd) :
    List.Sublist (_create_hotels_section hd) (storyOf d o y l t data) := by
  rw [storyOf_eq, hh]
  simp only [List.append_assoc]
  exact (List.sublist_append_left _ _).trans
    ((List.sublist_append_right _ _).trans
      ((List.sublist_append_right _ _).trans (List.sublist_append_right _ _)))

/-- When the restaurants field is present, the restaurants section occurs
contiguously (in order) inside the assembled story. -/
lemma restaurants_section_sublist (d o y l t : String) {data : TravelData}
    {rd : RestaurantOptions} (hr : data.validated_restaurants = some rd) :
    List.Sublist (_create_restaurants_section rd) (storyOf d o y l t data) := by
  rw [storyOf_eq, hr]
  simp only [List.append_assoc]
  exact (List.sublist_append_left _ _).trans
    ((List.sublist_append_right _ _).trans
      ((List.sublist_append_right _ _).trans
        ((List.sublist_append_right _ _).trans (List.sublist_append_right _ _))))

/-- When the activities field is present, the activities section occurs
contiguously (in order) inside the assembled story. -/
lemma activities_section_sublist (d o y l t : String) {data : TravelData}
    {ad : ActivityOptions} (ha : data.validated_activities = some ad) :
    List.Sublist (_create_activities_section ad) (storyOf d o y l t data) := by
  rw [storyOf_eq, ha]
  simp only [List.append_assoc]
  exact (List.sublist_append_left _ _).trans
    ((List.sublist_append_right _ _).trans
      ((List.sublist_append_right _ _).trans
        ((List.sublist_append_right _ _).trans
          ((List.sublist_append_right _ _).trans (List.sublist_append_right _ _)))))

/-- Interleaving a fixed spacer after each rendered item keeps the rendered
items a sublist, in input order. -/
lemma map_sublist_flatMap {α β : Type} (g : α → β) (sp : β) (xs : List α) :
    List.Sublist (xs.map g) (xs.flatMap (fun x => [g x, sp])) := by
  induction xs with
  | nil => simp
  | cons x xs ih =>
    simpa using List.Sublist.cons₂ (g x) (List.Sublist.cons sp ih)

/-- The per-item paragraphs of a hotel category render in input-list order. -/
lemma hotel_items_sublist (t : String) (hs : List Hotel) :
    List.Sublist
      (hs.map (fun h => Block.paragraph (hotel_info h) Style.customBody))
      (_create_hotel_category t hs) := by
  have h1 := map_sublist_flatMap
    (fun h => Block.paragraph (hotel_info h) Style.customBody) (Block.spacer 1 10) hs
  simp only [_create_hotel_category, List.append_assoc, List.singleton_append]
  exact List.Sublist.cons _ (h1.trans (List.sublist_append_left _ _))

/-- The per-item paragraphs of a restaurant category render in input-list
order. -/
lemma restaurant_items_sublist (t : String) (rs : List Restaurant) :
    List.Sublist
      (rs.map (fun r => Block.paragraph (restaurant_info r) Style.customBody))
      (_create_restaurant_category t rs) := by
  have h1 := map_sublist_flatMap
    (fun r => Block.paragraph (restaurant_info r) Style.customBody) (Block.spacer 1 10) rs
  simp only [_create_restaurant_category, List.append_assoc, List.singleton_append]
  exact List.Sublist.cons _ (h1.trans (List.sublist_append_left _ _))

/-! ### Claims -/

/-- C1 (counterexample): the claim says sanitization removes spaces, so that
`"Kyoto, Japan"` yields the segment `KyotoJapan_Travel_Guide_<date>.pdf`; the
code instead replaces each space with an underscore, producing
`Kyoto_Japan_Travel_Guide_<date>.pdf`. -/
theorem C1_counterexample :
    guideFilename "Kyoto, Japan" "20260101" = "Kyoto_Japan_Travel_Guide_20260101.pdf" ∧
      guideFilename "Kyoto, Japan" "20260101" ≠ "KyotoJapan_Travel_Guide_20260101.pdf" := by
  constructor
  · rfl
  · decide

/-- C1 (amended): the output path is the output directory joined with the
destination sanitized by replacing each space with an underscore and
removing commas, followed by `_Travel_Guide_`, the date as `YYYYMMDD`, and
`.pdf`; in particular `"Kyoto, Japan"` yields the segment
`Kyoto_Japan_Travel_Guide_<date>.pdf`. -/
theorem C1_filename_contract
    (destination output_dir dateYYYYMMDD longDate dateTimeLong : String)
    (data : TravelData) :
    (generate_travel_guide destination output_dir dateYYYYMMDD longDate
          dateTimeLong data).1
        = output_dir ++ "/" ++ (removeCommas (replaceSpaceWithUnderscore destination)
            ++ "_Travel_Guide_" ++ dateYYYYMMDD ++ ".pdf") ∧
      (generate_travel_guide "Kyoto, Japan" output_dir dateYYYYMMDD longDate
          dateTimeLong data).1
        = output_dir ++ "/" ++ ("Kyoto_Japan_Travel_Guide_" ++ dateYYYYMMDD ++ ".pdf") :=
  ⟨rfl, rfl⟩

/-- C2 (counterexample): the claim says an empty optional field causes its
section to be silently omitted; but a `travel_summary` key that is present
with the empty string still renders the Executive Summary section (the
top-level check is `'travel_summary' in travel_data`, key presence only). -/
theorem C2_counterexample :
    execSummaryHeading ∈
      storyOf "Paris" "travel_guides" "20260101" "January 01, 2026"
        "January 01, 2026 at 09:00 AM" (TravelData.mk (some "") none none none) := by
  decide

/-- C2 (amended): a missing top-level optional field causes its section to be
omitted, and a nested field that is missing or empty causes its subsection to
be omitted, with generation always completing; but a top-level field present
with an empty value still renders its section (an empty summary renders the
Executive Summary heading plus an empty body paragraph). -/
theorem C2_omission_policy (destination output_dir y l t : String)
    (data : TravelData) :
    (data.travel_summary = none →
        execSummaryHeading ∉ storyOf destination output_dir y l t data) ∧
      (data.travel_summary = some "" →
        execSummaryHeading ∈ storyOf destination output_dir y l t data ∧
          Block.paragraph "" Style.customBody ∈ storyOf destination output_dir y l t data) ∧
      (∀ hd : HotelOptions, hd.location_notes = none ∨ hd.location_notes = some "" →
        locationNotesHeading ∉ _create_hotels_section hd) ∧
      (∀ hd : HotelOptions, hd.budget_hotels = none ∨ hd.budget_hotels = some [] →
        budgetHotelsHeading ∉ _create_hotels_section hd) := by
  refine ⟨fun hnone hmem => ?_, fun hsum => ?_, fun hd hcase hmem => ?_,
    fun hd hcase hmem => ?_⟩
  · rcases mem_storyOf_sectionHeader hmem with ⟨_, s, hs⟩ | ⟨h1, _⟩ | ⟨h1, _⟩ | ⟨h1, _⟩
    · rw [hnone] at hs; cases hs
    · simp [execSummaryHeading] at h1
    · simp [execSummaryHeading] at h1
    · simp [execSummaryHeading] at h1
  · constructor <;>
      (rw [storyOf_eq, hsum]; simp [_create_executive_summary, execSummaryHeading])
  · obtain ⟨s, hx, hne⟩ := locationNotesHeading_mem hd hmem
    rcases hcase with h | h <;> rw [h] at hx
    · cases hx
    · exact hne (Option.some.inj hx).symm
  · obtain ⟨hs, hx, hne⟩ := budgetHotelsHeading_mem hd hmem
    rcases hcase with h | h <;> rw [h] at hx
    · cases hx
    · exact hne (Option.some.inj hx).symm

/-- C2 witness: the amended policy at concrete inputs. -/
theorem C2_omission_policy_witness :
    (execSummaryHeading ∉
        storyOf "Kyoto" "travel_guides" "20260101" "January 01, 2026"
          "January 01, 2026 at 09:00 AM" (TravelData.mk none none none none)) ∧
      budgetHotelsHeading ∉
        _create_hotels_section (HotelOptions.mk (some []) none none none) :=
  ⟨(C2_omission_policy "Kyoto" "travel_guides" "20260101" "January 01, 2026"
      "January 01, 2026 at 09:00 AM" (TravelData.mk none none none none)).1 rfl,
    (C2_omission_policy "Kyoto" "travel_guides" "20260101" "January 01, 2026"
      "January 01, 2026 at 09:00 AM" (TravelData.mk none none none none)).2.2.2
      (HotelOptions.mk (some []) none none none) (Or.inr rfl)⟩

/-- C3: the returned output path is a pure function of the destination string
and the current date: it does not depend on the travel data or on the other
timestamp renderings, so two calls with the same destination on the same
date return the same path. -/
theorem C3_path_deterministic
    (destination output_dir dateYYYYMMDD : String)
    (longDate₁ longDate₂ dateTimeLong₁ dateTimeLong₂ : String)
    (data₁ data₂ : TravelData) :
    (generate_travel_guide destination output_dir dateYYYYMMDD longDate₁
        dateTimeLong₁ data₁).1 =
      (generate_travel_guide destination output_dir dateYYYYMMDD longDate₂
        dateTimeLong₂ data₂).1 := rfl

/-- C4: with zero populated optional fields the assembled document is exactly
the title block, its unconditional page break, and the footer. -/
theorem C4_empty_record (destination output_dir y l t : String)
    (data : TravelData)
    (h₁ : data.travel_summary = none) (h₂ : data.validated_hotels = none)
    (h₃ : data.validated_restaurants = none) (h₄ : data.validated_activities = none) :
    storyOf destination output_dir y l t data =
      _create_title_page destination l ++ [Block.pageBreak]
        ++ _create_footer destination t := by
  rw [storyOf_eq, h₁, h₂, h₃, h₄]
  simp

/-- C4 witness: the all-absent record at concrete inputs. -/
theorem C4_empty_record_witness :
    storyOf "Kyoto" "travel_guides" "20260101" "January 01, 2026"
        "January 01, 2026 at 09:00 AM" (TravelData.mk none none none none) =
      _create_title_page "Kyoto" "January 01, 2026" ++ [Block.pageBreak]
        ++ _create_footer "Kyoto" "January 01, 2026 at 09:00 AM" :=
  C4_empty_record "Kyoto" "travel_guides" "20260101" "January 01, 2026"
    "January 01, 2026 at 09:00 AM" (TravelData.mk none none none none)
    rfl rfl rfl rfl

/-- C9: `generate_travel_guide` never mutates its input record: with the
state of the input made explicit, the post-call value of `travel_data` (and
hence of every nested catalog and item) is the input itself. -/
theorem C9_no_mutation (destination output_dir y l t : String)
    (data : TravelData) :
    (generate_travel_guide_frame destination output_dir y l t data).2 = data := rfl

/-- C5: with exactly one of the hotels, restaurants and activities fields
populated, the story contains that section's heading and its full content
(contiguously, in order), and contains no heading of the other two
sections. -/
theorem C5_exactly_one_section (d o y l t : String) (data : TravelData) :
    (∀ hd, data.validated_hotels = some hd →
        data.validated_restaurants = none → data.validated_activities = none →
        hotelsHeading ∈ storyOf d o y l t data ∧
          List.Sublist (_create_hotels_section hd) (storyOf d o y l t data) ∧
          diningHeading ∉ storyOf d o y l t data ∧
          activitiesHeading ∉ storyOf d o y l t data) ∧
      (∀ rd, data.validated_restaurants = some rd →
        data.validated_hotels = none → data.validated_activities = none →
        diningHeading ∈ storyOf d o y l t data ∧
          List.Sublist (_create_restaurants_section rd) (storyOf d o y l t data) ∧
          hotelsHeading ∉ storyOf d o y l t data ∧
          activitiesHeading ∉ storyOf d o y l t data) ∧
      (∀ ad, data.validated_activities = some ad →
        data.validated_hotels = none → data.validated_restaurants = none →
        activitiesHeading ∈ storyOf d o y l t data ∧
          List.Sublist (_create_activities_section ad) (storyOf d o y l t data) ∧
          hotelsHeading ∉ storyOf d o y l t data ∧
          diningHeading ∉ storyOf d o y l t data) := by
  refine ⟨fun hd hh hr ha => ⟨?_, hotels_section_sublist d o y l t hh, ?_, ?_⟩,
    fun rd hr hh ha => ⟨?_, restaurants_section_sublist d o y l t hr, ?_, ?_⟩,
    fun ad ha hh hr => ⟨?_, activities_section_sublist d o y l t ha, ?_, ?_⟩⟩
  · exact (hotels_section_sublist d o y l t hh).subset
      (by simp [_create_hotels_section, hotelsHeading])
  · intro hmem
    rcases mem_storyOf_sectionHeader hmem with ⟨h1, _⟩ | ⟨h1, _⟩ | ⟨_, rd', hr'⟩ | ⟨h1, _⟩
    · simp [diningHeading] at h1
    · simp [diningHeading] at h1
    · rw [hr] at hr'; cases hr'
    · simp [diningHeading] at h1
  · intro hmem
    rcases mem_storyOf_sectionHeader hmem with ⟨h1, _⟩ | ⟨h1, _⟩ | ⟨h1, _⟩ | ⟨_, ad', ha'⟩
    · simp [activitiesHeading] at h1
    · simp [activitiesHeading] at h1
    · simp [activitiesHeading] at h1
    · rw [ha] at ha'; cases ha'
  · exact (restaurants_section_sublist d o y l t hr).subset
      (by simp [_create_restaurants_section, diningHeading])
  · intro hmem
    rcases mem_storyOf_sectionHeader hmem with ⟨h1, _⟩ | ⟨_, hd', hh'⟩ | ⟨h1, _⟩ | ⟨h1, _⟩
    · simp [hotelsHeading] at h1
    · rw [hh] at hh'; cases hh'
    · simp [hotelsHeading] at h1
    · simp [hotelsHeading] at h1
  · intro hmem
    rcases mem_storyOf_sectionHeader hmem with ⟨h1, _⟩ | ⟨h1, _⟩ | ⟨h1, _⟩ | ⟨_, ad', ha'⟩
    · simp [activitiesHeading] at h1
    · simp [activitiesHeading] at h1
    · simp [activitiesHeading] at h1
    · rw [ha] at ha'; cases ha'
  · exact (activities_section_sublist d o y l t ha).subset
      (by simp [_create_activities_section, activitiesHeading])
  · intro hmem
    rcases mem_storyOf_sectionHeader hmem with ⟨h1, _⟩ | ⟨_, hd', hh'⟩ | ⟨h1, _⟩ | ⟨h1, _⟩
    · simp [hotelsHeading] at h1
    · rw [hh] at hh'; cases hh'
    · simp [hotelsHeading] at h1
    · simp [hotelsHeading] at h1
  · intro hmem
    rcases mem_storyOf_sectionHeader hmem with ⟨h1, _⟩ | ⟨h1, _⟩ | ⟨_, rd', hr'⟩ | ⟨h1, _⟩
    · simp [diningHeading] at h1
    · simp [diningHeading] at h1
    · rw [hr] at hr'; cases hr'
    · simp [diningHeading] at h1

/-- C5 witness: a record with only the hotels catalog populated. -/
theorem C5_exactly_one_section_witness :
    hotelsHeading ∈
        storyOf "Kyoto" "travel_guides" "20260101" "January 01, 2026"
          "January 01, 2026 at 09:00 AM"
          (TravelData.mk none (some (HotelOptions.mk none none none none)) none none) ∧
      diningHeading ∉
        storyOf "Kyoto" "travel_guides" "20260101" "January 01, 2026"
          "January 01, 2026 at 09:00 AM"
          (TravelData.mk none (some (HotelOptions.mk none none none none)) none none) := by
  have h := (C5_exactly_one_section "Kyoto" "travel_guides" "20260101" "January 01, 2026"
    "January 01, 2026 at 09:00 AM"
    (TravelData.mk none (some (HotelOptions.mk none none none none)) none none)).1
    (HotelOptions.mk none none none none) rfl rfl rfl
  exact ⟨h.1, h.2.2.1⟩

/-- C6: tier subsections render in the fixed order budget, mid-range,
luxury (hotels) and budget, mid-range, fine-dining (restaurants),
independent of the input lists; within a tier the item blocks render in
input-list order. -/
theorem C6_tier_order (hd : HotelOptions) (rd : RestaurantOptions) :
    (∀ bs ms ls, hd.budget_hotels = some bs → hd.midrange_hotels = some ms →
        hd.luxury_hotels = some ls → bs ≠ [] → ms ≠ [] → ls ≠ [] →
        ∃ p, _create_hotels_section hd =
          p ++ (_create_hotel_category "💰 Budget Hotels (Under $100/night)" bs
            ++ _create_hotel_category "🏨 Mid-Range Hotels ($100-250/night)" ms
            ++ _create_hotel_category "✨ Luxury Hotels ($250+/night)" ls)) ∧
      (∀ bs ms fs, rd.budget_dining = some bs → rd.midrange_dining = some ms →
        rd.fine_dining = some fs → bs ≠ [] → ms ≠ [] → fs ≠ [] →
        ∃ p q, _create_restaurants_section rd =
          p ++ (_create_restaurant_category "💰 Budget Dining (Under $25/person)" bs
            ++ _create_restaurant_category "🍴 Mid-Range Dining ($25-60/person)" ms
            ++ _create_restaurant_category "🥂 Fine Dining ($60+/person)" fs) ++ q) ∧
      (∀ t hs, List.Sublist
        (hs.map (fun h => Block.paragraph (hotel_info h) Style.customBody))
        (_create_hotel_category t hs)) ∧
      (∀ t rs, List.Sublist
        (rs.map (fun r => Block.paragraph (restaurant_info r) Style.customBody))
        (_create_restaurant_category t rs)) := by
  refine ⟨fun bs ms ls h1 h2 h3 n1 n2 n3 => ?_, fun bs ms fs h1 h2 h3 n1 n2 n3 => ?_,
    hotel_items_sublist, restaurant_items_sublist⟩
  · refine ⟨[Block.paragraph "🏨 Accommodation Recommendations" Style.sectionHeader]
      ++ strGuard hd.location_notes (fun s =>
          [Block.paragraph "📍 Best Areas to Stay" Style.subsectionHeader,
           Block.paragraph s Style.customBody,
           Block.spacer 1 15]), ?_⟩
    simp only [_create_hotels_section, h1, h2, h3, listGuard_pos n1, listGuard_pos n2,
      listGuard_pos n3, List.append_assoc]
  · refine ⟨[Block.paragraph "🍽️ Dining Recommendations" Style.sectionHeader]
      ++ listGuard rd.local_specialties (fun specs =>
          [Block.paragraph "🥘 Local Specialties & Must-Try Dishes" Style.subsectionHeader]
            ++ specs.map (fun specialty =>
                Block.paragraph ("• " ++ specialty) Style.bulletPoint)
            ++ [Block.spacer 1 15]),
      listGuard rd.unique_experiences (fun exps =>
          [Block.paragraph "🌟 Unique Dining Experiences" Style.subsectionHeader]
            ++ exps.map (fun experience =>
                Block.paragraph ("• " ++ experience) Style.bulletPoint)
            ++ [Block.spacer 1 15]), ?_⟩
    simp only [_create_restaurants_section, h1, h2, h3, listGuard_pos n1, listGuard_pos n2,
      listGuard_pos n3, List.append_assoc]

/-- C6 witness: all three hotel tiers and all three dining tiers populated
with one item each. -/
theorem C6_tier_order_witness :
    (∃ p, _create_hotels_section
        (HotelOptions.mk (some [Hotel.mk "B" "Budget" "$50" "d" "l"])
          (some [Hotel.mk "M" "Mid-range" "$150" "d" "l"])
          (some [Hotel.mk "L" "Luxury" "$300" "d" "l"]) none) =
      p ++ (_create_hotel_category "💰 Budget Hotels (Under $100/night)"
          [Hotel.mk "B" "Budget" "$50" "d" "l"]
        ++ _create_hotel_category "🏨 Mid-Range Hotels ($100-250/night)"
          [Hotel.mk "M" "Mid-range" "$150" "d" "l"]
        ++ _create_hotel_category "✨ Luxury Hotels ($250+/night)"
          [Hotel.mk "L" "Luxury" "$300" "d" "l"])) ∧
      List.Sublist
        ([Hotel.mk "B" "Budget" "$50" "d" "l"].map
          (fun h => Block.paragraph (hotel_info h) Style.customBody))
        (_create_hotel_category "💰 Budget Hotels (Under $100/night)"
          [Hotel.mk "B" "Budget" "$50" "d" "l"]) :=
  ⟨(C6_tier_order
      (HotelOptions.mk (some [Hotel.mk "B" "Budget" "$50" "d" "l"])
        (some [Hotel.mk "M" "Mid-range" "$150" "d" "l"])
        (some [Hotel.mk "L" "Luxury" "$300" "d" "l"]) none)
      (RestaurantOptions.mk none none none none none)).1
      _ _ _ rfl rfl rfl (List.cons_ne_nil _ _) (List.cons_ne_nil _ _)
      (List.cons_ne_nil _ _),
    (C6_tier_order
      (HotelOptions.mk (some [Hotel.mk "B" "Budget" "$50" "d" "l"])
        (some [Hotel.mk "M" "Mid-range" "$150" "d" "l"])
        (some [Hotel.mk "L" "Luxury" "$300" "d" "l"]) none)
      (RestaurantOptions.mk none none none none none)).2.2.1
      "💰 Budget Hotels (Under $100/night)" [Hotel.mk "B" "Budget" "$50" "d" "l"]⟩

/-- C7: an empty sequence field produces no output at all for its
subsection: the labeled heading is absent and the section renders exactly as
if the field were missing. -/
theorem C7_empty_sequence_no_subsection (hd : HotelOptions) (rd : RestaurantOptions) :
    (hd.budget_hotels = some [] →
        budgetHotelsHeading ∉ _create_hotels_section hd ∧
          _create_hotels_section hd =
            _create_hotels_section
              (HotelOptions.mk none hd.midrange_hotels hd.luxury_hotels
                hd.location_notes)) ∧
      (rd.budget_dining = some [] →
        budgetDiningHeading ∉ _create_restaurants_section rd ∧
          _create_restaurants_section rd =
            _create_restaurants_section
              (RestaurantOptions.mk rd.local_specialties none rd.midrange_dining
                rd.fine_dining rd.unique_experiences)) := by
  constructor
  · intro hb
    constructor
    · intro hmem
      obtain ⟨hs, hx, hne⟩ := budgetHotelsHeading_mem hd hmem
      rw [hb] at hx
      exact hne (Option.some.inj hx).symm
    · simp [_create_hotels_section, hb]
  · intro hb
    constructor
    · intro hmem
      obtain ⟨rs, hx, hne⟩ := budgetDiningHeading_mem rd hmem
      rw [hb] at hx
      exact hne (Option.some.inj hx).symm
    · simp [_create_restaurants_section, hb]

/-- C7 witness: an explicitly empty budget tier. -/
theorem C7_empty_sequence_witness :
    budgetHotelsHeading ∉
        _create_hotels_section (HotelOptions.mk (some []) none none none) ∧
      budgetDiningHeading ∉
        _create_restaurants_section (RestaurantOptions.mk none (some []) none none none) :=
  ⟨((C7_empty_sequence_no_subsection (HotelOptions.mk (some []) none none none)
      (RestaurantOptions.mk none (some []) none none none)).1 rfl).1,
    ((C7_empty_sequence_no_subsection (HotelOptions.mk (some []) none none none)
      (RestaurantOptions.mk none (some []) none none none)).2 rfl).1⟩

/-- C8: every hotel in a rendered category yields one body paragraph whose
text has the fixed four-part layout (bolded name, price line, location line,
description) in that order; an empty description leaves its slot present but
empty. -/
theorem C8_hotel_block_layout (title : String) (hs : List Hotel) (hotel : Hotel)
    (hmem : hotel ∈ hs) :
    Block.paragraph (hotel_info hotel) Style.customBody ∈
        _create_hotel_category title hs ∧
      hotel_info hotel =
        "\n            <b>" ++ hotel.name
          ++ "</b><br/>\n            <i>Price Range:</i> " ++ hotel.price_per_night
          ++ "<br/>\n            <i>Location:</i> " ++ hotel.location
          ++ "<br/>\n            " ++ hotel.description ++ "\n            " := by
  refine ⟨?_, rfl⟩
  simp only [_create_hotel_category, List.mem_append, List.mem_flatMap, List.mem_cons]
  exact Or.inl (Or.inr ⟨hotel, hmem, Or.inl rfl⟩)

/-- C8 witness: a hotel with an empty description still renders all four
parts, with the description slot empty. -/
theorem C8_hotel_block_layout_witness :
    Block.paragraph (hotel_info (Hotel.mk "Budget Stay Central" "Budget"
          "$50-80/night" "" "City Center")) Style.customBody ∈
        _create_hotel_category "💰 Budget Hotels (Under $100/night)"
          [Hotel.mk "Budget Stay Central" "Budget" "$50-80/night" "" "City Center"] ∧
      hotel_info (Hotel.mk "Budget Stay Central" "Budget" "$50-80/night" "" "City Center") =
        "\n            <b>" ++ "Budget Stay Central"
          ++ "</b><br/>\n            <i>Price Range:</i> " ++ "$50-80/night"
          ++ "<br/>\n            <i>Location:</i> " ++ "City Center"
          ++ "<br/>\n            " ++ "" ++ "\n            " :=
  C8_hotel_block_layout "💰 Budget Hotels (Under $100/night)"
    [Hotel.mk "Budget Stay Central" "Budget" "$50-80/night" "" "City Center"]
    (Hotel.mk "Budget Stay Central" "Budget" "$50-80/night" "" "City Center")
    (List.mem_singleton.mpr rfl)

/-- C10: a catalog value lacking an expected attribute entirely is handled
like an empty one: the corresponding subsection is skipped, the section
routine still produces a well-formed section starting with its heading, and
the attributes it does find are still rendered. -/
theorem C10_missing_attributes_total (hd : HotelOptions) (ad : ActivityOptions) :
    (hd.budget_hotels = none →
        budgetHotelsHeading ∉ _create_hotels_section hd) ∧
      (ad.must_see_attractions = none →
        mustSeeHeading ∉ _create_activities_section ad) ∧
      (∀ xs, ad.cultural_experiences = some xs → xs ≠ [] →
        List.Sublist (_create_activity_category "🏛️ Cultural Experiences" xs)
          (_create_activities_section ad)) ∧
      (∃ rest, _create_activities_section ad =
        Block.paragraph "🎯 Activities & Attractions" Style.sectionHeader :: rest) := by
  refine ⟨fun hb hmem => ?_, fun hm hmem => ?_, fun xs hc hne => ?_, ⟨_, rfl⟩⟩
  · obtain ⟨hs, hx, _⟩ := budgetHotelsHeading_mem hd hmem
    rw [hb] at hx
    cases hx
  · obtain ⟨xs, hx, _⟩ := mustSeeHeading_mem ad hmem
    rw [hm] at hx
    cases hx
  · simp only [_create_activities_section, hc, listGuard_pos hne, List.append_assoc]
    exact ((List.sublist_append_left _ _).trans
      (List.sublist_append_right _ _)).trans (List.sublist_append_right _ _)

/-- C10 witness: catalogs with attributes missing outright. -/
theorem C10_missing_attributes_witness :
    budgetHotelsHeading ∉
        _create_hotels_section (HotelOptions.mk none none none none) ∧
      List.Sublist
        (_create_activity_category "🏛️ Cultural Experiences"
          [Activity.mk "Museum" "Cultural" "d" "$10" "p"])
        (_create_activities_section
          (ActivityOptions.mk none (some [Activity.mk "Museum" "Cultural" "d" "$10" "p"])
            none none none none)) :=
  ⟨(C10_missing_attributes_total (HotelOptions.mk none none none none)
      (ActivityOptions.mk none none none none none none)).1 rfl,
    (C10_missing_attributes_total (HotelOptions.mk none none none none)
      (ActivityOptions.mk none (some [Activity.mk "Museum" "Cultural" "d" "$10" "p"])
        none none none none)).2.2.1 _ rfl (List.cons_ne_nil _ _)⟩

end TravelGuide
